import Mathlib

/-
Verification of the cc-notifier event pipeline (src/cc_notifier.py).

Shallow embedding notes:
- JSON values are modelled by the inductive type `JValue`.  Numbers are
  modelled as integers: no claim depends on fractional values.  Python
  dicts obtained from `json.loads` are modelled as association lists;
  `json.loads` collapses duplicate keys (the last occurrence wins during
  parsing), so objects produced by parsing carry one binding per key and
  association lists with duplicate keys do not arise from parsed input.
- Python truthiness (`if x:`) is modelled by `truthy`.
- One line of the transcript file is a `Line`: `blank` for a line that is
  empty after stripping (skipped before parsing), `malformed` for a line
  on which `json.loads` raises `JSONDecodeError` (logged and skipped),
  and `val j` for a line parsing to the JSON value `j`.
- The filesystem's response for a transcript path is a `FileAccess`:
  the path may be missing, opening/reading may fail, or the file has a
  list of lines.  `extract_last_message_from_jsonl` is modelled as a
  function of that response.
- Inside the per-line loop, only `json.JSONDecodeError` is caught.  A
  line whose JSON value is not an object raises on `'cwd' in data`
  (TypeError for null/bool/number) or on `data.get(...)`
  (AttributeError for strings and arrays), escaping the loop; the
  function-level handler then returns `("", "")`.  This is modelled by
  `processLine` returning `none` on a non-object value.
-/

inductive JValue where
  | null : JValue
  | bool : Bool → JValue
  | num : Int → JValue
  | str : String → JValue
  | arr : List JValue → JValue
  | obj : List (String × JValue) → JValue

/-- Python truthiness of a JSON value: `None`, `False`, `0`, `""`, `[]`
and `{}` are falsy, everything else is truthy. -/
def truthy : JValue → Bool
  | .null => false
  | .bool b => b
  | .num n => n != 0
  | .str s => s != ""
  | .arr [] => false
  | .arr (_ :: _) => true
  | .obj [] => false
  | .obj (_ :: _) => true

/-- One line of the JSONL transcript, as seen by the per-line loop. -/
inductive Line where
  | blank : Line
  | malformed : Line
  | val : JValue → Line

/-- Result of accessing the transcript file at its (home-expanded) path. -/
inductive FileAccess where
  | missing : FileAccess
  | ioError : FileAccess
  | content : List Line → FileAccess

/-- Lines 102-109 of cc_notifier.py: the per-line working-directory
update.  The first PRESENT key among `cwd`, `workspace`,
`workingDirectory`, then nested `message.cwd`, supplies the new value;
`data.get(k, '')` with the key present returns the stored value, so the
accumulator is overwritten by whatever value is stored, the empty string
included. -/
def lineCwd (fs : List (String × JValue)) (cur : JValue) : JValue :=
  if (fs.lookup "cwd").isSome then (fs.lookup "cwd").getD (.str "")
  else if (fs.lookup "workspace").isSome then (fs.lookup "workspace").getD (.str "")
  else if (fs.lookup "workingDirectory").isSome then (fs.lookup "workingDirectory").getD (.str "")
  else
    match fs.lookup "message" with
    | some (.obj ms) =>
        if (ms.lookup "cwd").isSome then (ms.lookup "cwd").getD (.str "") else cur
    | _ => cur

/-- Lines 122-128 of cc_notifier.py: one content item.  An item that is a
dict with `type == 'text'` and a truthy `text` value overwrites the
accumulated last message with that value. -/
def itemText (cur : JValue) (item : JValue) : JValue :=
  match item with
  | .obj ifs =>
      match ifs.lookup "type" with
      | some (.str t) =>
          if t = "text" then
            let text := (ifs.lookup "text").getD (.str "")
            if truthy text then text else cur
          else cur
      | _ => cur
  | _ => cur

/-- Lines 112-128 of cc_notifier.py: the per-line message update.  The
line must carry a dict `message` with a list `content`; the content
items are scanned in order. -/
def lineText (fs : List (String × JValue)) (cur : JValue) : JValue :=
  match fs.lookup "message" with
  | some (.obj ms) =>
      match ms.lookup "content" with
      | some (.arr items) => items.foldl itemText cur
      | _ => cur
  | _ => cur

/-- One iteration of the line loop over the accumulator pair
(last message, cwd).  Blank lines are skipped before parsing, malformed
lines are skipped by the `JSONDecodeError` handler.  A line carrying a
non-object JSON value raises (TypeError on `'cwd' in data` for
null/bool/number, AttributeError on `data.get` for strings and arrays),
which the loop does not catch: `none` models that escape. -/
def processLine (st : JValue × JValue) : Line → Option (JValue × JValue)
  | .blank => some st
  | .malformed => some st
  | .val (.obj fs) => some (lineText fs st.1, lineCwd fs st.2)
  | .val _ => none

/-- The line loop (lines 90-133 of cc_notifier.py). -/
def scanLines : List Line → (JValue × JValue) → Option (JValue × JValue)
  | [], st => some st
  | l :: ls, st =>
      match processLine st l with
      | some st' => scanLines ls st'
      | none => none

/-- Lines 67-140 of cc_notifier.py: `extract_last_message_from_jsonl`.
Missing file: return `("", "")`.  Any exception while opening, reading
or processing (modelled by `ioError` and by `scanLines` returning
`none`) is caught by the function-level handler, which also returns
`("", "")`. -/
def extract_last_message_from_jsonl : FileAccess → JValue × JValue
  | .missing => (.str "", .str "")
  | .ioError => (.str "", .str "")
  | .content lines =>
      match scanLines lines (.str "", .str "") with
      | some st => st
      | none => (.str "", .str "")

/-- A line that parsed to a JSON object. -/
def isObjLine : Line → Bool
  | .val (.obj _) => true
  | _ => false

/-
String helpers.  Python strings are modelled by `String`, with the
operations the program uses rendered over the underlying character list
(`String.data`), which keeps them easy to reason about:
- `pyLen` is `len` (code points);
- `pyTake n` is the slice `s[:n]`;
- `pyLower` is `str.lower` (the program only lowercases for the ASCII
  keyword comparison; `Char.toLower` lowercases the basic latin range,
  which agrees with Python there — no Unicode case pair maps into the
  uppercase latin range, so the classification result is unaffected);
- `pyIn` is the substring test `needle in hay`;
- `pyStrip` is `str.strip()` with Python's whitespace set restricted to
  its ASCII part (the rare Unicode space characters Python additionally
  strips play no role in any claim);
- `pyRstripSlash` is `str.rstrip('/')`;
- `pyBasename` is `os.path.basename` (the part after the last slash).
-/

/-- ASCII whitespace as stripped by Python `str.strip()`. -/
def pyIsSpace (c : Char) : Bool :=
  c = ' ' || c = '\t' || c = '\n' || c = '\r' || c = '\x0b' || c = '\x0c'

/-- Left strip on character lists. -/
def lstripL (l : List Char) : List Char := l.dropWhile pyIsSpace

/-- Right strip on character lists. -/
def rstripL (l : List Char) : List Char := (l.reverse.dropWhile pyIsSpace).reverse

/-- Python `str.strip()`. -/
def pyStrip (s : String) : String := ⟨rstripL (lstripL s.data)⟩

/-- Python `len`. -/
def pyLen (s : String) : Nat := s.data.length

/-- Python slice `s[:n]`. -/
def pyTake (n : Nat) (s : String) : String := ⟨s.data.take n⟩

/-- Python `str.lower()`. -/
def pyLower (s : String) : String := ⟨s.data.map Char.toLower⟩

/-- Substring test on character lists: some tail of `hay` starts with
`needle`. -/
def infixCheck (needle : List Char) : List Char → Bool
  | [] => needle.isEmpty
  | c :: t => needle.isPrefixOf (c :: t) || infixCheck needle t

/-- Python `needle in hay` for strings. -/
def pyIn (needle hay : String) : Bool := infixCheck needle.data hay.data

/-- Python `str.rstrip('/')`. -/
def pyRstripSlash (s : String) : String := ⟨(s.data.reverse.dropWhile (· == '/')).reverse⟩

/-- Python `os.path.basename`: the part after the last slash. -/
def pyBasename (s : String) : String := ⟨(s.data.reverse.takeWhile (· != '/')).reverse⟩

/-
The Stop-event formatter (lines 143-239 of cc_notifier.py) and the main
dispatcher (lines 366-432).

The hook record read from stdin is modelled by `Hook`: each field holds
the value of the corresponding key when present.  The fields are
modelled at the types the program manipulates (the session id and
transcript path are sliced/compared as strings, the still-active flag is
used as a boolean); an input storing other types at these keys drives
the top-level exception handler and is outside the claims.

`format_stop_message` performs no I/O of its own beyond calling the
extractor, so it is a function of the hook and of the filesystem's
response for the transcript path.  The string operations `.lower()`,
`len`, slicing and `.rstrip('/')` raise AttributeError/TypeError when
the extracted value is truthy but not a string; nothing in the formatter
catches that, so the exception propagates to the caller: the formatter
returns `Except String FeishuCard`, with `.error` carrying a short
description of the Python exception (the claims never inspect the
text).
-/

structure Hook where
  event_type : Option String
  session_id : Option String
  stop_hook_active : Option Bool
  transcript_path : Option String
  message : Option String
  notification : Option JValue

/-- The projection of the Feishu card 2.0 payload that the claims
mention: header title, header color template, and the single markdown
body element's content.  The remaining fields of the returned dict
(msg_type, schema, paddings, text alignment and so on) are constants in
the source. -/
structure FeishuCard where
  title : String
  template : String
  content : String
deriving DecidableEq

/-- Lines 161-163 of cc_notifier.py: the configured error keyword list. -/
def error_keywords : List String := ["API Error:"]

/-- Lines 166-172 of cc_notifier.py: the error classification of the
extracted message.  The message is lowercased and each keyword is
searched in it AS WRITTEN (the keyword itself is not lowercased). -/
def is_error_of (last_message : String) : Bool :=
  if last_message != "" then
    error_keywords.any (fun kw => pyIn kw (pyLower last_message))
  else false

/-- The extracted last-message value the formatter works with: the
extractor runs only when the transcript path is truthy (lines 154-158). -/
def stopLastJ (h : Hook) (file : FileAccess) : JValue :=
  if h.transcript_path.getD "" != "" then (extract_last_message_from_jsonl file).1
  else .str ""

/-- The extracted working-directory value the formatter works with. -/
def stopCwdJ (h : Hook) (file : FileAccess) : JValue :=
  if h.transcript_path.getD "" != "" then (extract_last_message_from_jsonl file).2
  else .str ""

/-- How the formatter consumes an extracted value: a falsy value (of any
type) selects the fallback branches, a truthy string is used, and a
truthy non-string raises once a string method is applied to it. -/
def usableStr (j : JValue) : Except String (Option String) :=
  if truthy j then
    match j with
    | .str s => .ok (some s)
    | _ => .error "TypeError: str operation applied to a non-string extracted value"
  else .ok none

/-- The warning banner prepended when the stop hook is still active
(line 179), without its trailing blank-line separator. -/
def warnLine : String := "**⚠️ 警告:** Stop hook 仍在激活状态"

/-- The continuation marker appended after a truncated message
(line 185). -/
def truncMarker : String := "...\n\n*💡 完整内容请查看终端*"

/-- Lines 174-204 of cc_notifier.py: the markdown content composed for
a Stop event, before the final whitespace strip — warning banner first,
then the message (truncated) or the fallback, with the project label
prepended last. -/
def stopContent (h : Hook) (lastOpt cwdOpt : Option String) : String :=
  let session_id := h.session_id.getD "Unknown Session"
  let stop_hook_active := h.stop_hook_active.getD false
  let transcript_path := h.transcript_path.getD ""
  let content := if stop_hook_active then warnLine ++ "\n\n" else ""
  let content := content ++
    (match lastOpt with
     | some last =>
         if pyLen last > 1000 then pyTake 1000 last ++ truncMarker
         else last
     | none =>
         "Session " ++ pyTake 8 session_id ++ "... 已结束\n\n" ++
         (if transcript_path != "" then
            "**📁 Debug - JSONL路径:**\n`" ++ transcript_path ++ "`"
          else "**⚠️ Debug:** 未提供 transcript_path"))
  match cwdOpt with
  | some cwd =>
      let project_name := pyBasename (pyRstripSlash cwd)
      if project_name != "" then
        "<font size=2>📂 项目: " ++ project_name ++ "</font>\n" ++ content
      else
        "<font size=2>📂 路径: " ++ cwd ++ "</font>\n" ++ content
  | none => content

/-- Lines 150-239 of cc_notifier.py, after the extracted values have
been reduced to `Option String`: the pure card construction. -/
def buildCard (h : Hook) (lastOpt cwdOpt : Option String) : FeishuCard :=
  let is_error := match lastOpt with
    | some s => is_error_of s
    | none => false
  if is_error then
    { title := "❌ 任务异常", template := "red",
      content := pyStrip (stopContent h lastOpt cwdOpt) }
  else
    { title := "✅ 任务完成", template := "green",
      content := pyStrip (stopContent h lastOpt cwdOpt) }

/-- Lines 143-239 of cc_notifier.py: `format_stop_message`.  The
`.lower()` call on a truthy non-string message raises before the
`.rstrip('/')` call on a truthy non-string cwd would. -/
def format_stop_message (h : Hook) (file : FileAccess) : Except String FeishuCard :=
  match usableStr (stopLastJ h file), usableStr (stopCwdJ h file) with
  | .error e, _ => .error e
  | .ok _, .error e => .error e
  | .ok lastOpt, .ok cwdOpt => .ok (buildCard h lastOpt cwdOpt)

/-
The main dispatcher.  The two outbound deliveries are modelled by
parameters: `feishuOk` abstracts the outcome of `send_to_feishu`
(webhook configured, POST succeeded) and `PushOutcome` abstracts what
the Bark request did.  `send_ios_push_notification` (lines 296-344)
catches every exception internally and only logs failures, so its value
is `Unit` whatever the outcome: the push outcome is invisible to the
caller.  The process outcome is recorded as `ProcResult`: the JSON
object printed on stdout, the exit code, the card handed to
`send_to_feishu` (if it was called) and the title/message argument
pairs handed to `send_ios_push_notification`.
-/

/-- Outcome of the Bark push request: 200 with a good body, non-200,
200 with an error body, or a raised exception. -/
inductive PushOutcome where
  | ok : PushOutcome
  | non200 : PushOutcome
  | errorBody : PushOutcome
  | exn : PushOutcome

/-- Lines 296-344 of cc_notifier.py: every failure path inside the
function is caught and logged; the caller observes nothing. -/
def send_ios_push_notification (_outcome : PushOutcome) (_title _message : String) : Unit := ()

/-- The JSON object printed on stdout. -/
structure ResultJson where
  success : Bool
  message : Option String
  error : Option String
deriving DecidableEq

/-- Observable outcome of one `main` invocation. -/
structure ProcResult where
  output : ResultJson
  exitCode : Nat
  feishuSent : Option FeishuCard
  iosCalls : List (String × String)
deriving DecidableEq

/-- Lines 375-382 of cc_notifier.py: resolve the event type, inferring
it from marker keys when it is absent or explicitly "Unknown". -/
def resolveEventType (h : Hook) : String :=
  let event_type := h.event_type.getD "Unknown"
  if event_type = "Unknown" then
    if h.stop_hook_active.isSome then "Stop"
    else if h.notification.isSome || h.message.isSome then "Notification"
    else "Unknown"
  else event_type

/-- Lines 389-399 of cc_notifier.py: the arguments handed to
`send_ios_push_notification` on the Stop path.  The extractor is run a
second time here; the branch for a truthy non-string extracted message
is unreachable, because `format_stop_message` has already raised on
such a value before this code runs (it is modelled as an error for
definiteness). -/
def stopPushArgs (h : Hook) (file : FileAccess) : Except String (String × String) :=
  let transcript_path := h.transcript_path.getD ""
  if transcript_path != "" then
    match (extract_last_message_from_jsonl file).1 with
    | .str s =>
        if s != "" then .ok ("任务完成", pyTake 100 s)
        else .ok ("任务完成", "Session 已结束")
    | j =>
        if truthy j then .error "TypeError: slice applied to a non-string extracted value"
        else .ok ("任务完成", "Session 已结束")
  else .ok ("任务完成", "Session 已结束")

/-- Lines 366-432 of cc_notifier.py: `main`.  Any exception escaping the
pipeline is caught by the top-level handler, which prints
`{"success": false, "error": str(e)}` and exits with code 1.  On the
Stop path the card is built first, then the push call is made, then the
webhook delivery decides the process outcome; every other event type is
ignored with a success result naming the type. -/
def runMain (h : Hook) (file : FileAccess) (feishuOk : Bool) (push : PushOutcome) : ProcResult :=
  let event_type := resolveEventType h
  if event_type = "Stop" then
    match format_stop_message h file with
    | .error e =>
        { output := ⟨false, none, some e⟩, exitCode := 1, feishuSent := none, iosCalls := [] }
    | .ok card =>
        match stopPushArgs h file with
        | .error e =>
            { output := ⟨false, none, some e⟩, exitCode := 1, feishuSent := none, iosCalls := [] }
        | .ok call =>
            let _ := send_ios_push_notification push call.1 call.2
            if feishuOk then
              { output := ⟨true, none, none⟩, exitCode := 0,
                feishuSent := some card, iosCalls := [call] }
            else
              { output := ⟨false, none, some "发送到飞书失败"⟩, exitCode := 1,
                feishuSent := some card, iosCalls := [call] }
  else
    { output := ⟨true, some ("忽略事件类型：" ++ event_type), none⟩, exitCode := 0,
      feishuSent := none, iosCalls := [] }

/-
Specification-side selectors for the extraction claims (C2, C4).  These
re-state, line-locally, which value a line contributes; the theorems
relate the scan to "the last contribution wins".
-/

/-- The per-line working-directory contribution, mirroring the
precedence order of `lineCwd`: `none` when no recognized field is
present in the line. -/
def lineCwdSel? : Line → Option JValue
  | .val (.obj fs) =>
      if (fs.lookup "cwd").isSome then some ((fs.lookup "cwd").getD (.str ""))
      else if (fs.lookup "workspace").isSome then some ((fs.lookup "workspace").getD (.str ""))
      else if (fs.lookup "workingDirectory").isSome then
        some ((fs.lookup "workingDirectory").getD (.str ""))
      else
        match fs.lookup "message" with
        | some (.obj ms) =>
            if (ms.lookup "cwd").isSome then some ((ms.lookup "cwd").getD (.str "")) else none
        | _ => none
  | _ => none

/-- The text carried by a qualifying content item: a dict with
`type == 'text'` and a truthy `text` value. -/
def qualifyingText? (item : JValue) : Option JValue :=
  match item with
  | .obj ifs =>
      match ifs.lookup "type" with
      | some (.str t) =>
          if t = "text" then
            let text := (ifs.lookup "text").getD (.str "")
            if truthy text then some text else none
          else none
      | _ => none
  | _ => none

/-- The rightmost `some` produced by `sel` over a list, scanning items in
order with last-write-wins semantics. -/
def lastSome? (sel : α → Option β) : List α → Option β
  | [] => none
  | x :: xs =>
      match lastSome? sel xs with
      | some b => some b
      | none => sel x

/-- The per-line message contribution: the last qualifying text item of
the line's `message.content` sequence, if any. -/
def lineLastText? : Line → Option JValue
  | .val (.obj fs) =>
      match fs.lookup "message" with
      | some (.obj ms) =>
          match ms.lookup "content" with
          | some (.arr items) => lastSome? qualifyingText? items
          | _ => none
      | _ => none
  | _ => none

/-- Specification value for the returned working directory: the
contribution of the last line carrying a recognized field (possibly the
empty string), or `""` when no line carries one. -/
def lastCwdSpec (lines : List Line) : JValue :=
  (lastSome? lineCwdSel? lines).getD (.str "")

/-- Specification value for the returned message: the text of the
chronologically last qualifying item (lines in file order, items in
sequence order), or `""` when there is none. -/
def lastTextSpec (lines : List Line) : JValue :=
  (lastSome? lineLastText? lines).getD (.str "")

/-- The message-accumulator update for one line. -/
def textStep (m : JValue) (l : Line) : JValue :=
  match l with
  | .val (.obj fs) => lineText fs m
  | _ => m

/-- The cwd-accumulator update for one line. -/
def cwdStep (c : JValue) (l : Line) : JValue :=
  match l with
  | .val (.obj fs) => lineCwd fs c
  | _ => c

/-
Concrete inputs used by the claim theorems, witnesses and
counterexamples.
-/

/-- A transcript line whose `message.content` holds a single text item
with the given text. -/
def goodTextLine (t : String) : Line :=
  .val (.obj [("message", .obj
    [("content", .arr [.obj [("type", .str "text"), ("text", .str t)]])])])

/-- A transcript line whose `message.content` holds a single item of
type `text` whose `text` value is the given JSON value. -/
def textValueLine (j : JValue) : Line :=
  .val (.obj [("message", .obj
    [("content", .arr [.obj [("type", .str "text"), ("text", j)]])])])

/-- A Stop hook with a transcript path, as read from stdin. -/
def stopHook : Hook :=
  { event_type := some "Stop", session_id := some "0123456789abcdef",
    stop_hook_active := none, transcript_path := some "/tmp/session.jsonl",
    message := none, notification := none }

/-- Transcript whose last message text is "API Error: boom". -/
def c1File : FileAccess := .content [goodTextLine "API Error: boom"]

/-- Transcript for the C2 counterexample: a line with a non-empty `cwd`
followed by a line whose `cwd` is present but empty. -/
def c2File : FileAccess :=
  .content [.val (.obj [("cwd", .str "/a")]), .val (.obj [("cwd", .str "")])]

/-- Transcript for the C3 failing input: a valid text line, then a line
that is valid JSON but not an object, then another valid text line. -/
def c3BadFile : FileAccess :=
  .content [goodTextLine "hello", .val (.num 5), goodTextLine "world"]

/-- The same transcript without the non-record line. -/
def c3GoodFile : FileAccess :=
  .content [goodTextLine "hello", goodTextLine "world"]

/-- Transcript used by the C2 and C4 witnesses: working-directory fields
and text items spread over several lines. -/
def c24File : List Line :=
  [ .val (.obj [("workspace", .str "/w"), ("message", .obj
      [("content", .arr [.obj [("type", .str "text"), ("text", .str "first")],
                         .obj [("type", .str "text"), ("text", .str "second")]])])]),
    .val (.obj [("message", .obj [("cwd", .str "/m"), ("content", .arr
      [.obj [("type", .str "text"), ("text", .str "")],
       .obj [("type", .str "tool_use")]])])]),
    .val (.obj [("cwd", .str "/k"), ("message", .obj
      [("content", .arr [.obj [("type", .str "text"), ("text", .str "third")]])])]) ]

/-- A long message that begins with a newline: 1 + 1000 characters. -/
def c5cMsg : String := ⟨'\n' :: List.replicate 1000 'a'⟩

/-- Transcript carrying the whitespace-leading long message. -/
def c5cFile : FileAccess := .content [goodTextLine c5cMsg]

/-- The card the formatter builds for the whitespace-leading long
message. -/
def c5cCard : FeishuCard :=
  match format_stop_message stopHook c5cFile with
  | .ok c => c
  | .error _ => { title := "", template := "", content := "" }

/-- A long message of 1001 identical non-whitespace characters. -/
def c5wMsg : String := ⟨List.replicate 1001 'b'⟩

/-- Transcript carrying the 1001-character message. -/
def c5wFile : FileAccess := .content [goodTextLine c5wMsg]

/-- The card the formatter builds for the 1001-character message. -/
def c5wCard : FeishuCard :=
  match format_stop_message stopHook c5wFile with
  | .ok c => c
  | .error _ => { title := "", template := "", content := "" }

/-- A Stop hook with the still-active warning set and no transcript
path (the spec's end-to-end scenario B). -/
def c6Hook : Hook :=
  { event_type := some "Stop", session_id := some "0123456789abcdef",
    stop_hook_active := some true, transcript_path := none,
    message := none, notification := none }

/-- The card built for scenario B. -/
def c6Card : FeishuCard :=
  match format_stop_message c6Hook .missing with
  | .ok c => c
  | .error _ => { title := "", template := "", content := "" }

/-- Transcript whose last text item carries the number 5 instead of a
string: extraction succeeds, but the formatter's `.lower()` call raises. -/
def c7File : FileAccess := .content [textValueLine (.num 5)]

/-- Transcript with an ordinary short message. -/
def plainFile : FileAccess := .content [goodTextLine "done"]

/-- The card built for the ordinary short message. -/
def plainCard : FeishuCard :=
  match format_stop_message stopHook plainFile with
  | .ok c => c
  | .error _ => { title := "", template := "", content := "" }

/-- An event of an unrecognized type. -/
def c8Hook : Hook :=
  { event_type := some "ToolUse", session_id := some "0123456789abcdef",
    stop_hook_active := none, transcript_path := none,
    message := none, notification := none }

/-- An event of the Notification kind (inferred from the presence of a
message field). -/
def notifHook : Hook :=
  { event_type := none, session_id := some "0123456789abcdef",
    stop_hook_active := none, transcript_path := none,
    message := some "Claude needs your permission", notification := none }

/-- The error classification a Stop event receives: the value the
variable `is_error` holds in `format_stop_message` (false whenever the
extracted message is not a usable string, in which case either the
fallback branch runs or the formatter raises before the classification
is consumed). -/
def stopIsError (h : Hook) (file : FileAccess) : Bool :=
  match stopLastJ h file with
  | .str s => is_error_of s
  | _ => false

/-
General lemmas about the scan.
-/

/-- A line satisfying `isObjLine` is a parsed object. -/
theorem isObjLine_exists {l : Line} (h : isObjLine l = true) :
    ∃ fs, l = .val (.obj fs) := by
  cases l with
  | blank => simp [isObjLine] at h
  | malformed => simp [isObjLine] at h
  | val j => cases j <;> simp_all [isObjLine]

/-- Folding an overwrite-on-some step function equals the rightmost
contribution, with the start value as fallback. -/
theorem foldl_step_eq (sel : α → Option β) (step : β → α → β)
    (hstep : ∀ c x, step c x = (sel x).getD c) :
    ∀ (l : List α) (c : β), l.foldl step c = (lastSome? sel l).getD c := by
  intro l
  induction l with
  | nil => intro c; rfl
  | cons x xs ih =>
      intro c
      rw [List.foldl_cons, hstep, ih]
      show _ = (lastSome? sel (x :: xs)).getD c
      simp only [lastSome?]
      cases h : lastSome? sel xs with
      | some b => simp
      | none => simp

/-- The content-item update overwrites exactly on qualifying items. -/
theorem itemText_eq (cur item : JValue) :
    itemText cur item = (qualifyingText? item).getD cur := by
  cases item <;> simp only [itemText, qualifyingText?, Option.getD_none]
  case obj ifs =>
    rcases h : ifs.lookup "type" with _ | v
    · simp [h]
    · cases v <;> simp only [h] <;> try simp
      case str t =>
        by_cases ht : t = "text"
        · subst ht
          simp only [if_pos rfl]
          by_cases htr : truthy ((ifs.lookup "text").getD (JValue.str "")) = true <;>
            simp [htr]
        · simp [ht]

/-- The per-line message update overwrites exactly on the line's last
qualifying item. -/
theorem textStep_eq (m : JValue) (l : Line) :
    textStep m l = (lineLastText? l).getD m := by
  cases l with
  | blank => rfl
  | malformed => rfl
  | val j =>
      cases j <;> try rfl
      case obj fs =>
        show lineText fs m = (lineLastText? (.val (.obj fs))).getD m
        simp only [lineText, lineLastText?]
        rcases h1 : fs.lookup "message" with _ | v
        · simp [h1]
        · cases v <;> simp only [h1] <;> try simp
          case obj ms =>
            rcases h2 : ms.lookup "content" with _ | w
            · simp [h2]
            · cases w <;> simp only [h2] <;> try simp
              case arr items =>
                exact foldl_step_eq qualifyingText? itemText itemText_eq items m

/-- The per-line cwd update overwrites exactly on lines carrying a
recognized field. -/
theorem cwdStep_eq (c : JValue) (l : Line) :
    cwdStep c l = (lineCwdSel? l).getD c := by
  cases l with
  | blank => rfl
  | malformed => rfl
  | val j =>
      cases j <;> try rfl
      case obj fs =>
        show lineCwd fs c = (lineCwdSel? (.val (.obj fs))).getD c
        simp only [lineCwd, lineCwdSel?]
        split_ifs <;> try simp
        rcases h4 : fs.lookup "message" with _ | v4
        · simp
        · cases v4 <;> try simp
          next ms =>
            rcases h5 : ms.lookup "cwd" with _ | v5 <;> simp

/-- Over a log of parsed objects the scan never raises and is the pair
of the two accumulator folds. -/
theorem scanLines_eq_foldl (lines : List Line) :
    ∀ (m c : JValue), lines.all isObjLine = true →
      scanLines lines (m, c) = some (lines.foldl textStep m, lines.foldl cwdStep c) := by
  induction lines with
  | nil => intro m c _; rfl
  | cons l ls ih =>
      intro m c hall
      rw [List.all_cons, Bool.and_eq_true] at hall
      obtain ⟨fs, rfl⟩ := isObjLine_exists hall.1
      rw [List.foldl_cons, List.foldl_cons]
      show scanLines ls (lineText fs m, lineCwd fs c) = _
      exact ih _ _ hall.2

/-- Over a log of parsed objects, extraction returns the last text
contribution and the last working-directory contribution. -/
theorem extract_content_eq (lines : List Line) (h : lines.all isObjLine = true) :
    extract_last_message_from_jsonl (.content lines) =
      (lastTextSpec lines, lastCwdSpec lines) := by
  show (match scanLines lines (JValue.str "", JValue.str "") with
        | some st => st
        | none => (JValue.str "", JValue.str "")) = _
  rw [scanLines_eq_foldl lines _ _ h]
  show (lines.foldl textStep (.str ""), lines.foldl cwdStep (.str "")) = _
  rw [foldl_step_eq lineLastText? textStep textStep_eq,
      foldl_step_eq lineCwdSel? cwdStep cwdStep_eq]
  rfl

/-
Lemmas for the classification claim: lowercasing can never produce the
uppercase letter that starts the configured keyword, so the keyword
search in the lowercased message can never succeed.
-/

/-- Converting a small scalar value to a character and back is the
identity. -/
theorem toNat_char_ofNat_of_lt {n : Nat} (h : n < 55296) :
    (Char.ofNat n).toNat = n := by
  rw [Char.ofNat, dif_pos (Or.inl h)]
  rfl

/-- Lowercasing never yields the character `A`. -/
theorem toLower_toNat_ne_65 (c : Char) : (Char.toLower c).toNat ≠ 65 := by
  unfold Char.toLower
  by_cases h : c.toNat ≥ 65 ∧ c.toNat ≤ 90
  · rw [if_pos h]
    rw [toNat_char_ofNat_of_lt (by omega)]
    omega
  · rw [if_neg h]
    intro hc
    exact h ⟨by omega, by omega⟩

/-- A successful substring check for a non-empty needle puts the
needle's first character somewhere in the haystack. -/
theorem mem_of_infixCheck {c : Char} {n : List Char} :
    ∀ {h : List Char}, infixCheck (c :: n) h = true → c ∈ h := by
  intro h
  induction h with
  | nil => intro hh; simp [infixCheck, List.isEmpty] at hh
  | cons x t ih =>
      intro hh
      simp only [infixCheck, Bool.or_eq_true] at hh
      rcases hh with hp | ht
      · have hcx : c = x := by
          simp only [List.isPrefixOf, Bool.and_eq_true, beq_iff_eq] at hp
          exact hp.1
        exact hcx ▸ List.mem_cons_self x t
      · exact List.mem_cons_of_mem x (ih ht)

/-- The classification of lines 166-172 can never fire: the keyword
`API Error:` starts with an uppercase `A`, and the lowercased message
contains no such character. -/
theorem is_error_of_eq_false (msg : String) : is_error_of msg = false := by
  unfold is_error_of
  split
  · simp only [error_keywords, List.any_cons, List.any_nil, Bool.or_false]
    show pyIn "API Error:" (pyLower msg) = false
    cases hic : pyIn "API Error:" (pyLower msg)
    · rfl
    · exfalso
      have hmem : 'A' ∈ msg.data.map Char.toLower := by
        have hdata : ("API Error:").data = 'A' :: ("PI Error:").data := rfl
        unfold pyIn at hic
        rw [hdata] at hic
        exact mem_of_infixCheck hic
      obtain ⟨d, _, hd⟩ := List.mem_map.mp hmem
      exact toLower_toNat_ne_65 d (by rw [hd]; rfl)
  · rfl

/-
Claim theorems.
-/

/-- C1: the claim states that classification yields `isError = true`
exactly when the lowercased message contains a lowercased configured
keyword, so a message containing `API Error:` must classify as an
error.  The code lowercases the message but searches for the keyword as
written; the mixed-case keyword can never occur in a lowercased string,
so `is_error` is false even for a message that literally contains the
keyword (it is false for every message), and the card for such a
message carries the success title and green theme. -/
theorem C1_keyword_never_matches :
    (∀ msg : String, is_error_of msg = false) ∧
    pyIn (pyLower "API Error:") (pyLower "API Error: boom") = true ∧
    is_error_of "API Error: boom" = false ∧
    format_stop_message stopHook c1File =
      .ok { title := "✅ 任务完成", template := "green", content := "API Error: boom" } :=
  ⟨is_error_of_eq_false, by decide, is_error_of_eq_false _, rfl⟩

/-- C2 (counterexample): the claim states that the returned working
directory is the last NON-EMPTY value seen and that a line carrying
only empty values leaves the accumulator unchanged.  On the log whose
first line has `cwd = "/a"` and whose second line has `cwd = ""`, the
code returns `""`: the later present-but-empty value overwrites the
earlier non-empty one. -/
theorem C2_counterexample :
    (extract_last_message_from_jsonl c2File).2 = JValue.str "" ∧
    JValue.str "" ≠ JValue.str "/a" ∧
    (extract_last_message_from_jsonl
      (.content [.val (.obj [("cwd", JValue.str "/a")])])).2 = JValue.str "/a" := by
  refine ⟨rfl, ?_, rfl⟩
  intro hh
  injection hh with hs
  exact absurd hs (by decide)

/-- C2 (amended): for every log whose lines all parse as JSON objects,
the returned working directory is the value selected by the LAST line
in which any recognized field is present — per line the first present
field among `cwd`, `workspace`, `workingDirectory`, then nested
`message.cwd` wins — where any present value, the empty string
included, overwrites the accumulator. -/
theorem C2_last_present_value_wins (lines : List Line)
    (h : lines.all isObjLine = true) :
    (extract_last_message_from_jsonl (.content lines)).2 = lastCwdSpec lines := by
  rw [extract_content_eq lines h]

/-- C2 witness: the amended statement evaluated on a three-line log
carrying `workspace`, `message.cwd` and `cwd` fields. -/
theorem C2_last_present_value_wins_witness :
    (List.all c24File isObjLine = true) ∧
    (extract_last_message_from_jsonl (.content c24File)).2 = lastCwdSpec c24File :=
  ⟨by decide, C2_last_present_value_wins c24File (by decide)⟩

/-- C3: the claim states that a line failing to parse as a record is
skipped and never aborts the scan nor discards accumulated results.
The code only catches `json.JSONDecodeError`; the line `5` is valid
JSON but not a record, and probing it with `'cwd' in data` raises
`TypeError`, which escapes the loop and is converted by the
function-level handler into `("", "")`: the text `"hello"` accumulated
before the bad line and the text `"world"` after it are both discarded,
while the same log without the bad line yields `"world"`. -/
theorem C3_nonrecord_line_aborts :
    extract_last_message_from_jsonl c3BadFile = (JValue.str "", JValue.str "") ∧
    extract_last_message_from_jsonl c3GoodFile = (JValue.str "world", JValue.str "") :=
  ⟨rfl, rfl⟩

/-- C4: for every log whose lines all parse as JSON objects, extraction
returns the text of the chronologically last qualifying content item —
lines in file order, items in sequence order, where a qualifying item
is a dict with `type == 'text'` and a truthy `text` value — and items
with empty text never overwrite the accumulator (`lastSome?` skips
them). -/
theorem C4_last_text_item_wins (lines : List Line)
    (h : lines.all isObjLine = true) :
    (extract_last_message_from_jsonl (.content lines)).1 = lastTextSpec lines := by
  rw [extract_content_eq lines h]

/-- C4 witness: the statement evaluated on a three-line log whose text
items are spread over several lines, with an empty-text item in the
middle line. -/
theorem C4_last_text_item_wins_witness :
    (List.all c24File isObjLine = true) ∧
    (extract_last_message_from_jsonl (.content c24File)).1 = lastTextSpec c24File ∧
    lastTextSpec c24File = JValue.str "third" :=
  ⟨by decide, C4_last_text_item_wins c24File (by decide), rfl⟩

/-- C9: for every transcript path whose (home-expanded) resolution is a
missing file, and for every I/O failure while opening or reading,
extraction returns the pair of empty strings and never raises (the
embedding is a total function). -/
theorem C9_missing_or_io_failure (file : FileAccess)
    (h : file = .missing ∨ file = .ioError) :
    extract_last_message_from_jsonl file = (JValue.str "", JValue.str "") := by
  rcases h with rfl | rfl <;> rfl

/-- C9 witness: the statement evaluated at a missing file. -/
theorem C9_missing_or_io_failure_witness :
    (FileAccess.missing = FileAccess.missing ∨ FileAccess.missing = FileAccess.ioError) ∧
    extract_last_message_from_jsonl .missing = (JValue.str "", JValue.str "") :=
  ⟨Or.inl rfl, C9_missing_or_io_failure .missing (Or.inl rfl)⟩

/-
Lemmas about the formatter.
-/

/-- A successful formatting run decomposes into the two extracted-value
conversions and the pure card construction. -/
theorem format_eq_ok {h : Hook} {file : FileAccess} {card : FeishuCard}
    (hfmt : format_stop_message h file = .ok card) :
    ∃ lastOpt cwdOpt, usableStr (stopLastJ h file) = .ok lastOpt ∧
      usableStr (stopCwdJ h file) = .ok cwdOpt ∧
      card = buildCard h lastOpt cwdOpt := by
  unfold format_stop_message at hfmt
  rcases hl : usableStr (stopLastJ h file) with e | lastOpt <;> rw [hl] at hfmt
  · exact Except.noConfusion hfmt
  · rcases hc : usableStr (stopCwdJ h file) with e | cwdOpt <;> rw [hc] at hfmt
    · exact Except.noConfusion hfmt
    · exact ⟨lastOpt, cwdOpt, rfl, rfl, (Except.ok.inj hfmt).symm⟩

/-- The classification variable inside the card construction is false
for every extracted value. -/
theorem card_is_error_false (lastOpt : Option String) :
    (match lastOpt with | some s => is_error_of s | none => false) = false := by
  cases lastOpt with
  | none => rfl
  | some s => exact is_error_of_eq_false s

/-- The Stop-event classification is false for every event and file. -/
theorem stopIsError_false (h : Hook) (file : FileAccess) :
    stopIsError h file = false := by
  unfold stopIsError
  cases stopLastJ h file <;> first | rfl | exact is_error_of_eq_false _

/-- Every built card carries the completion title and the green theme
(a consequence of the classification never firing). -/
theorem buildCard_title_eq (h : Hook) (lastOpt cwdOpt : Option String) :
    (buildCard h lastOpt cwdOpt).title = "✅ 任务完成" ∧
    (buildCard h lastOpt cwdOpt).template = "green" := by
  unfold buildCard
  rw [card_is_error_false lastOpt]
  exact ⟨rfl, rfl⟩

/-- The content of every built card is the stripped composed content. -/
theorem buildCard_content_eq (h : Hook) (lastOpt cwdOpt : Option String) :
    (buildCard h lastOpt cwdOpt).content = pyStrip (stopContent h lastOpt cwdOpt) := by
  unfold buildCard
  rw [card_is_error_false lastOpt]
  rfl

/-
Lemmas about stripping.
-/

/-- dropWhile does not look past a stable non-empty front chunk. -/
theorem dropWhile_append_of_self (p : α → Bool) (a b : List α)
    (ha : a.dropWhile p = a) (hne : a ≠ []) :
    (a ++ b).dropWhile p = a ++ b := by
  rw [List.dropWhile_append, ha]
  have : a.isEmpty = false := by
    cases a with
    | nil => exact absurd rfl hne
    | cons x xs => rfl
  rw [this]
  rfl

/-- Stripping is the identity when both directed strips are. -/
theorem pyStrip_eq_self_of (s : String)
    (h1 : s.data.dropWhile pyIsSpace = s.data)
    (h2 : s.data.reverse.dropWhile pyIsSpace = s.data.reverse) :
    pyStrip s = s := by
  unfold pyStrip lstripL rstripL
  rw [h1, h2, List.reverse_reverse]

/-- A right-strip keeps any already-right-stripped front part as a
prefix. -/
theorem rstripL_keeps_front (l r : List Char) (hl : rstripL l = l) :
    l <+: rstripL (l ++ r) := by
  unfold rstripL at *
  rw [List.reverse_append, List.dropWhile_append]
  by_cases hre : (r.reverse.dropWhile pyIsSpace).isEmpty
  · rw [if_pos hre, hl]
  · rw [if_neg hre, List.reverse_append, List.reverse_reverse]
    exact ⟨_, rfl⟩

/-- With the still-active flag set and no working directory, the
composed content is the warning banner followed by the rest of the
body. -/
theorem stopContent_warn_decomp (h : Hook) (lastOpt : Option String)
    (hw : h.stop_hook_active.getD false = true) :
    ∃ M : String, stopContent h lastOpt none = (warnLine ++ "\n\n") ++ M :=
  ⟨_, by simp only [stopContent]; rw [hw, if_pos rfl]⟩

/-- C6: for every Stop event the card's title and theme are a function
of the error classification alone — the failure title with red theme
when it is true, the completion title with green theme when it is false
— and are unchanged under any value of the still-active flag, which
only prepends the warning banner to the body; in particular an event
with the flag set and no error keyword in its message gets the success
title and a body beginning with the warning line. -/
theorem C6_title_theme_only_from_classification (h : Hook) (file : FileAccess)
    (card : FeishuCard) (hfmt : format_stop_message h file = .ok card) :
    (card.title = (if stopIsError h file then "❌ 任务异常" else "✅ 任务完成") ∧
     card.template = (if stopIsError h file then "red" else "green")) ∧
    (∀ (b : Bool) (card' : FeishuCard),
        format_stop_message { h with stop_hook_active := some b } file = .ok card' →
        card'.title = card.title ∧ card'.template = card.template) ∧
    (h.stop_hook_active.getD false = true → stopIsError h file = false →
     stopCwdJ h file = JValue.str "" →
     card.title = "✅ 任务完成" ∧ warnLine.data <+: card.content.data) := by
  obtain ⟨lastOpt, cwdOpt, hl, hc, hcard⟩ := format_eq_ok hfmt
  subst hcard
  refine ⟨?_, ?_, ?_⟩
  · rw [stopIsError_false]
    exact ⟨(buildCard_title_eq h lastOpt cwdOpt).1, (buildCard_title_eq h lastOpt cwdOpt).2⟩
  · intro b card' hfmt'
    obtain ⟨lastOpt', cwdOpt', _, _, hcard'⟩ := format_eq_ok hfmt'
    subst hcard'
    rw [(buildCard_title_eq _ _ _).1, (buildCard_title_eq _ _ _).1,
        (buildCard_title_eq _ _ _).2, (buildCard_title_eq _ _ _).2]
    exact ⟨rfl, rfl⟩
  · intro hw _ hcwd
    refine ⟨(buildCard_title_eq h lastOpt cwdOpt).1, ?_⟩
    rw [hcwd] at hc
    have husable : usableStr (JValue.str "") = Except.ok none := rfl
    rw [husable] at hc
    obtain rfl : cwdOpt = none := (Except.ok.inj hc).symm
    rw [buildCard_content_eq]
    obtain ⟨M, hM⟩ := stopContent_warn_decomp h lastOpt hw
    rw [hM]
    show warnLine.data <+: rstripL (lstripL ((warnLine ++ "\n\n") ++ M).data)
    have hXdata : ((warnLine ++ "\n\n") ++ M).data =
        warnLine.data ++ (("\n\n").data ++ M.data) := by
      simp [List.append_assoc]
    rw [hXdata]
    have hfront : lstripL (warnLine.data ++ (("\n\n").data ++ M.data)) =
        warnLine.data ++ (("\n\n").data ++ M.data) := by
      unfold lstripL
      exact dropWhile_append_of_self _ _ _ (by decide) (by decide)
    rw [hfront]
    exact rstripL_keeps_front _ _ (by decide)

/-- C6 witness: the spec's scenario B — still-active flag set, no
transcript path — yields the success title and a body that begins with
the warning line. -/
theorem C6_witness :
    c6Card.title = "✅ 任务完成" ∧ warnLine.data <+: c6Card.content.data :=
  (C6_title_theme_only_from_classification c6Hook .missing c6Card rfl).2.2
    rfl (stopIsError_false c6Hook .missing) rfl

/-- String append is associative. -/
theorem strAppend_assoc (a b c : String) : (a ++ b) ++ c = a ++ (b ++ c) :=
  String.ext (by simp [List.append_assoc])

/-- The empty string is a left unit. -/
theorem str_empty_append (x : String) : "" ++ x = x :=
  String.ext rfl

/-- The empty string is a right unit. -/
theorem str_append_empty (x : String) : x ++ "" = x :=
  String.ext (by simp)

/-- Stripping is the identity on a string that left-strips to itself
and ends with the continuation marker. -/
theorem pyStrip_marker_eq (X : String)
    (hfront : lstripL X.data = X.data)
    (hform : ∃ Y : List Char, X.data = Y ++ truncMarker.data) :
    pyStrip X = X := by
  apply pyStrip_eq_self_of X hfront
  obtain ⟨Y, hY⟩ := hform
  rw [hY, List.reverse_append]
  exact dropWhile_append_of_self _ _ _ (by decide) (by decide)

/-- With a long message, the composed content is some prefix (possibly
empty, otherwise starting with a non-whitespace character) followed by
the 1000-character truncation and the continuation marker, and the
whole content left-strips to itself when the message head is not
whitespace. -/
theorem stopContent_long_decomp (h : Hook) (cwdOpt : Option String) (s : String)
    (hlen : 1000 < pyLen s) (hws : pyIsSpace s.data.headI = false) :
    ∃ pre : String,
      stopContent h (some s) cwdOpt = pre ++ (pyTake 1000 s ++ truncMarker) ∧
      lstripL (stopContent h (some s) cwdOpt).data =
        (stopContent h (some s) cwdOpt).data := by
  have hsd : ∃ c t, s.data = c :: t := by
    rcases hs : s.data with _ | ⟨c, t⟩
    · rw [pyLen, hs] at hlen
      simp at hlen
    · exact ⟨c, t, rfl⟩
  obtain ⟨c, t, hs⟩ := hsd
  have hc : pyIsSpace c = false := by
    rw [hs] at hws
    simpa using hws
  have hTdata : (pyTake 1000 s ++ truncMarker).data =
      c :: (t.take 999 ++ truncMarker.data) := by
    show (pyTake 1000 s).data ++ truncMarker.data = _
    show s.data.take 1000 ++ truncMarker.data = _
    have h1000 : (1000 : Nat) = 999 + 1 := rfl
    rw [hs, h1000, List.take_succ_cons, List.cons_append]
  have hTfront : lstripL (pyTake 1000 s ++ truncMarker).data =
      (pyTake 1000 s ++ truncMarker).data := by
    rw [hTdata]
    exact List.dropWhile_cons_of_neg (by simp [hc])
  rcases cwdOpt with _ | cwd
  · cases hb : h.stop_hook_active.getD false
    · have hC : stopContent h (some s) none =
          "" ++ (pyTake 1000 s ++ truncMarker) := by
        simp only [stopContent]
        rw [hb, if_neg (by simp), if_pos hlen]
      refine ⟨"", hC, ?_⟩
      rw [hC, str_empty_append]
      exact hTfront
    · have hC : stopContent h (some s) none =
          (warnLine ++ "\n\n") ++ (pyTake 1000 s ++ truncMarker) := by
        simp only [stopContent]
        rw [hb, if_pos rfl, if_pos hlen]
      refine ⟨warnLine ++ "\n\n", hC, ?_⟩
      rw [hC]
      show ((warnLine ++ "\n\n").data ++ (pyTake 1000 s ++ truncMarker).data).dropWhile
        pyIsSpace = _
      exact dropWhile_append_of_self _ _ _ (by decide) (by decide)
  · by_cases hproj : (pyBasename (pyRstripSlash cwd) != "") = true
    · have hC : stopContent h (some s) (some cwd) =
          "<font size=2>📂 项目: " ++ (pyBasename (pyRstripSlash cwd)) ++ "</font>\n" ++
            ((if h.stop_hook_active.getD false then warnLine ++ "\n\n" else "") ++
              (pyTake 1000 s ++ truncMarker)) := by
        simp only [stopContent]
        rw [if_pos hlen, if_pos hproj]
      refine ⟨"<font size=2>📂 项目: " ++ (pyBasename (pyRstripSlash cwd)) ++
        ("</font>\n" ++ (if h.stop_hook_active.getD false then warnLine ++ "\n\n" else "")),
        ?_, ?_⟩
      · rw [hC]
        simp only [strAppend_assoc]
      · rw [hC]
        show lstripL _ = _
        simp only [String.data_append, List.append_assoc]
        exact dropWhile_append_of_self _ _ _ (by decide) (by decide)
    · have hC : stopContent h (some s) (some cwd) =
          "<font size=2>📂 路径: " ++ cwd ++ "</font>\n" ++
            ((if h.stop_hook_active.getD false then warnLine ++ "\n\n" else "") ++
              (pyTake 1000 s ++ truncMarker)) := by
        simp only [stopContent]
        rw [if_pos hlen, if_neg hproj]
      refine ⟨"<font size=2>📂 路径: " ++ cwd ++
        ("</font>\n" ++ (if h.stop_hook_active.getD false then warnLine ++ "\n\n" else "")),
        ?_, ?_⟩
      · rw [hC]
        simp only [strAppend_assoc]
      · rw [hC]
        show lstripL _ = _
        simp only [String.data_append, List.append_assoc]
        exact dropWhile_append_of_self _ _ _ (by decide) (by decide)

/-- C5 (amended): for every Stop event whose extracted message is
longer than 1000 characters AND does not begin with a whitespace
character, the card body is some prefix (warning banner and/or project
label, possibly empty) followed by exactly the first 1000 characters of
the message and the fixed continuation marker; that portion has length
exactly 1000 and is a prefix of the original message.  (Without the
whitespace condition the final whole-body strip can shorten the
portion; see the counterexample.) -/
theorem C5_truncation (h : Hook) (file : FileAccess) (card : FeishuCard) (s : String)
    (hfmt : format_stop_message h file = .ok card)
    (hlast : stopLastJ h file = JValue.str s)
    (hlen : 1000 < pyLen s)
    (hws : pyIsSpace s.data.headI = false) :
    ∃ pre : String,
      card.content = pre ++ (pyTake 1000 s ++ truncMarker) ∧
      pyLen (pyTake 1000 s) = 1000 ∧
      (pyTake 1000 s).data <+: s.data := by
  obtain ⟨lastOpt, cwdOpt, hl, hc, hcard⟩ := format_eq_ok hfmt
  subst hcard
  rw [hlast] at hl
  have hsne : s ≠ "" := by
    intro he
    rw [he] at hlen
    simp [pyLen] at hlen
  have htr : truthy (JValue.str s) = true := by
    simp [truthy, hsne]
  have husable : usableStr (JValue.str s) = .ok (some s) := by
    unfold usableStr
    rw [htr]
    rfl
  rw [husable] at hl
  obtain rfl : lastOpt = some s := (Except.ok.inj hl).symm
  rw [buildCard_content_eq]
  obtain ⟨pre, hC, hfront⟩ := stopContent_long_decomp h cwdOpt s hlen hws
  have hform : ∃ Y : List Char,
      (stopContent h (some s) cwdOpt).data = Y ++ truncMarker.data := by
    refine ⟨pre.data ++ (pyTake 1000 s).data, ?_⟩
    rw [hC]
    simp [List.append_assoc]
  refine ⟨pre, ?_, ?_, ?_⟩
  · rw [pyStrip_marker_eq _ hfront hform]
    exact hC
  · simp only [pyLen, pyTake] at hlen ⊢
    simp only [List.length_take]
    omega
  · exact ⟨s.data.drop 1000, List.take_append_drop 1000 s.data⟩

set_option maxRecDepth 8000 in
/-- C5 witness: the amended statement evaluated on a transcript whose
last message is 1001 copies of a non-whitespace character. -/
theorem C5_truncation_witness :
    ∃ pre : String,
      c5wCard.content = pre ++ (pyTake 1000 c5wMsg ++ truncMarker) ∧
      pyLen (pyTake 1000 c5wMsg) = 1000 ∧
      (pyTake 1000 c5wMsg).data <+: c5wMsg.data :=
  C5_truncation stopHook c5wFile c5wCard c5wMsg rfl rfl (by decide) (by decide)

set_option maxRecDepth 8000 in
/-- C5 (counterexample): the claim as stated fails on a 1001-character
message beginning with a newline.  With no warning banner and no
project label the body is exactly the message portion followed by the
marker, so the claim forces the body length to be 1000 plus the marker
length; the code's final `.strip()` removes the leading newline, the
computed body is one character shorter, and the 1000-character prefix
of the message does not occur in the body at all. -/
theorem C5_counterexample :
    stopLastJ stopHook c5cFile = JValue.str c5cMsg ∧
    pyLen c5cMsg = 1001 ∧
    format_stop_message stopHook c5cFile = .ok c5cCard ∧
    pyLen c5cCard.content = 999 + pyLen truncMarker ∧
    pyLen (pyTake 1000 c5cMsg ++ truncMarker) = 1000 + pyLen truncMarker ∧
    infixCheck (pyTake 1000 c5cMsg).data c5cCard.content.data = false :=
  ⟨rfl, by decide, rfl, by decide, by decide, by decide⟩

/-
Lemmas about the dispatcher.
-/

/-- Decomposition of a successful extracted-value conversion. -/
theorem usableStr_ok_cases {j : JValue} {o : Option String}
    (h : usableStr j = .ok o) :
    (∃ s, j = .str s ∧ o = some s ∧ truthy j = true) ∨
    (truthy j = false ∧ o = none) := by
  unfold usableStr at h
  by_cases ht : truthy j = true
  · rw [if_pos ht] at h
    cases j <;> try exact Except.noConfusion h
    rename_i s
    exact Or.inl ⟨s, rfl, (Except.ok.inj h).symm, ht⟩
  · rw [if_neg ht] at h
    exact Or.inr ⟨by simpa using ht, (Except.ok.inj h).symm⟩

/-- The push arguments a Stop event hands to the push channel: the
fixed completion title, and either the generic session-ended message or
the first 100 characters of the extracted message. -/
theorem stopPushArgs_char {h : Hook} {file : FileAccess} {call : String × String}
    (hpu : stopPushArgs h file = .ok call) :
    call.1 = "任务完成" ∧
    (call.2 = "Session 已结束" ∨
     ∃ s : String, (extract_last_message_from_jsonl file).1 = JValue.str s ∧
       s ≠ "" ∧ call.2 = pyTake 100 s) := by
  simp only [stopPushArgs] at hpu
  split at hpu
  · split at hpu
    · rename_i s heq
      split at hpu
      · rename_i hs
        obtain rfl := Except.ok.inj hpu
        exact ⟨rfl, Or.inr ⟨s, heq, by simpa using hs, rfl⟩⟩
      · obtain rfl := Except.ok.inj hpu
        exact ⟨rfl, Or.inl rfl⟩
    · split at hpu
      · exact Except.noConfusion hpu
      · obtain rfl := Except.ok.inj hpu
        exact ⟨rfl, Or.inl rfl⟩
  · obtain rfl := Except.ok.inj hpu
    exact ⟨rfl, Or.inl rfl⟩

/-- When formatting succeeded, building the push arguments cannot
raise: the only raising branch needs a truthy non-string extracted
message, on which the formatter would already have raised. -/
theorem stopPushArgs_ok {h : Hook} {file : FileAccess} {card : FeishuCard}
    (hfmt : format_stop_message h file = .ok card) :
    ∃ call, stopPushArgs h file = .ok call := by
  obtain ⟨lastOpt, cwdOpt, hl, _, _⟩ := format_eq_ok hfmt
  rcases hpu : stopPushArgs h file with e | call
  · exfalso
    simp only [stopPushArgs] at hpu
    split at hpu
    · rename_i htp
      have hlj : stopLastJ h file = (extract_last_message_from_jsonl file).1 := by
        simp only [stopLastJ]
        rw [if_pos htp]
      rw [hlj] at hl
      split at hpu
      · split at hpu <;> exact Except.noConfusion hpu
      · split at hpu
        · rename_i heq htr
          rcases usableStr_ok_cases hl with ⟨s', hjs, _, _⟩ | ⟨hf, _⟩
          · exact heq s' hjs
          · rw [hf] at htr
            exact Bool.noConfusion htr
        · exact Except.noConfusion hpu
    · exact Except.noConfusion hpu
  · exact ⟨call, rfl⟩

/-- C7 (counterexample): the claim as stated fails when the formatting
pipeline raises.  On a Stop event whose transcript's text item carries
the number 5 instead of a string, extraction succeeds but the
formatter's `.lower()` call raises; the top-level handler prints a
failure result and exits 1 even though the webhook delivery would have
succeeded, and the webhook is never attempted. -/
theorem C7_counterexample :
    resolveEventType stopHook = "Stop" ∧
    (runMain stopHook c7File true .ok).exitCode = 1 ∧
    (runMain stopHook c7File true .ok).output.success = false ∧
    (runMain stopHook c7File true .ok).feishuSent = none :=
  ⟨rfl, rfl, rfl, rfl⟩

/-- C7 (amended): for every Stop event on which the formatter raises no
exception, the stdout result object and the exit code are determined
solely by the chat-webhook outcome — success gives the success result
and exit code 0, failure gives the failure result and exit code 1 — the
entire observable outcome is independent of the mobile-push outcome,
and the card is always handed to the webhook sender. -/
theorem C7_webhook_decides (h : Hook) (file : FileAccess) (card : FeishuCard)
    (fOk : Bool) (p q : PushOutcome)
    (hstop : resolveEventType h = "Stop")
    (hfmt : format_stop_message h file = .ok card) :
    runMain h file fOk p = runMain h file fOk q ∧
    (runMain h file fOk p).output =
      (if fOk then ⟨true, none, none⟩ else ⟨false, none, some "发送到飞书失败"⟩) ∧
    (runMain h file fOk p).exitCode = (if fOk then 0 else 1) ∧
    (runMain h file fOk p).feishuSent = some card := by
  obtain ⟨call, hpush⟩ := stopPushArgs_ok hfmt
  have hrun : ∀ r : PushOutcome, runMain h file fOk r =
      (if fOk then
        { output := ⟨true, none, none⟩, exitCode := 0,
          feishuSent := some card, iosCalls := [call] }
       else
        { output := ⟨false, none, some "发送到飞书失败"⟩, exitCode := 1,
          feishuSent := some card, iosCalls := [call] }) := by
    intro r
    simp only [runMain]
    rw [hstop, if_pos rfl, hfmt, hpush]
  refine ⟨by rw [hrun p, hrun q], ?_, ?_, ?_⟩ <;> rw [hrun p] <;> cases fOk <;> rfl

/-- C7 witness: the amended statement evaluated on an ordinary Stop
event with a short message, a succeeding webhook, and two different
push outcomes. -/
theorem C7_webhook_decides_witness :
    runMain stopHook plainFile true .ok = runMain stopHook plainFile true .non200 ∧
    (runMain stopHook plainFile true .ok).output =
      (if true then ⟨true, none, none⟩ else ⟨false, none, some "发送到飞书失败"⟩) ∧
    (runMain stopHook plainFile true .ok).exitCode = (if true then 0 else 1) ∧
    (runMain stopHook plainFile true .ok).feishuSent = some plainCard :=
  C7_webhook_decides stopHook plainFile plainCard true .ok .non200 rfl rfl

/-- C8: every event resolving to a kind other than Stop — the
Notification kind included, whose dispatch branch is commented out in
the source — leads to no delivery attempt on any channel, a success
result naming the ignored kind, and exit code 0. -/
theorem C8_non_stop_ignored (h : Hook) (file : FileAccess) (fOk : Bool) (p : PushOutcome)
    (hns : resolveEventType h ≠ "Stop") :
    runMain h file fOk p =
      { output := ⟨true, some ("忽略事件类型：" ++ resolveEventType h), none⟩,
        exitCode := 0, feishuSent := none, iosCalls := [] } := by
  simp only [runMain]
  rw [if_neg hns]

/-- C8 witness: the statement evaluated on an explicit "ToolUse" event
and on an inferred Notification event. -/
theorem C8_non_stop_ignored_witness :
    (resolveEventType c8Hook ≠ "Stop" ∧
     runMain c8Hook .missing true .ok =
       { output := ⟨true, some ("忽略事件类型：" ++ resolveEventType c8Hook), none⟩,
         exitCode := 0, feishuSent := none, iosCalls := [] }) ∧
    (resolveEventType notifHook = "Notification" ∧
     runMain notifHook .missing true .ok =
       { output := ⟨true, some ("忽略事件类型：" ++ resolveEventType notifHook), none⟩,
         exitCode := 0, feishuSent := none, iosCalls := [] }) :=
  ⟨⟨by decide, C8_non_stop_ignored c8Hook .missing true .ok (by decide)⟩,
   ⟨rfl, C8_non_stop_ignored notifHook .missing true .ok (by decide)⟩⟩

/-- C10: on the Stop path the push channel is handed at most one call,
always titled with the fixed literal "任务完成" (never an error title),
whose message is either the generic session-ended string or the first
100 characters of the extracted message; no call is handed when the
formatting pipeline raised. -/
theorem C10_push_title_fixed (h : Hook) (file : FileAccess) (fOk : Bool) (p : PushOutcome)
    (hstop : resolveEventType h = "Stop") :
    (runMain h file fOk p).iosCalls = [] ∨
    ∃ m : String, (runMain h file fOk p).iosCalls = [("任务完成", m)] ∧
      (m = "Session 已结束" ∨
       ∃ s : String, (extract_last_message_from_jsonl file).1 = JValue.str s ∧
         s ≠ "" ∧ m = pyTake 100 s) := by
  simp only [runMain]
  rw [hstop, if_pos rfl]
  rcases hfmt : format_stop_message h file with e | card
  · exact Or.inl rfl
  · rcases hpu : stopPushArgs h file with e | call
    · exact Or.inl rfl
    · obtain ⟨h1, h2⟩ := stopPushArgs_char hpu
      refine Or.inr ⟨call.2, ?_, h2⟩
      cases fOk <;> (rw [← h1]; rfl)

/-- C10 witness: the statement evaluated on an ordinary Stop event
whose extracted message is "done". -/
theorem C10_push_title_fixed_witness :
    (runMain stopHook plainFile true .ok).iosCalls = [] ∨
    ∃ m : String, (runMain stopHook plainFile true .ok).iosCalls = [("任务完成", m)] ∧
      (m = "Session 已结束" ∨
       ∃ s : String, (extract_last_message_from_jsonl plainFile).1 = JValue.str s ∧
         s ≠ "" ∧ m = pyTake 100 s) :=
  C10_push_title_fixed stopHook plainFile true .ok rfl
